import Mathlib

/-!
Verification of the Agario multiplayer game's simulation core against its
specification.  The development shallowly embeds the authoritative server
engine (game.js and physics.js), the client-side physics engine
(PhysicsEngine.ts), the spatial hash grid (SpatialHashGrid.ts) and the
split/merge system (SplitMergeSystem.ts).  JavaScript numbers are modelled
as real numbers; timestamps (`Date.now()` millisecond counts) as integers;
entity maps as functions from string ids to optional entities.
-/

open Classical

namespace Physics

/-- `radiusFromMass` of physics.js: `r = sqrt(m/pi)`, with a guard returning
0 for non-positive mass. -/
noncomputable def radiusFromMass (mass : ℝ) : ℝ :=
  if mass ≤ 0 then 0 else Real.sqrt (mass / Real.pi)

/-- `massFromRadius` of physics.js: `m = pi * r^2`, 0 for non-positive radius. -/
noncomputable def massFromRadius (radius : ℝ) : ℝ :=
  if radius ≤ 0 then 0 else Real.pi * radius * radius

/-- `vMaxFromMass` of physics.js: `clamp(220 / m^0.25, 18, 220)`, returning
the top speed 220 for non-positive mass. -/
noncomputable def vMaxFromMass (mass : ℝ) : ℝ :=
  if mass ≤ 0 then 220 else max 18 (min 220 (220 / mass ^ (0.25 : ℝ)))

/-- `applyDamping` of physics.js (the call sites use the default factor 0.98). -/
def applyDamping (velocity dampingFactor : ℝ) : ℝ :=
  velocity * dampingFactor

/-- `calculateNewMass` of physics.js: predator mass after eating. -/
def calculateNewMass (predatorMass preyMass efficiency : ℝ) : ℝ :=
  predatorMass + preyMass * efficiency

/-- 2D vector of world coordinates. -/
structure Vec2 where
  x : ℝ
  y : ℝ

/-- `clampToWorld` of physics.js: clamp a position into
`[radius, width-radius] x [radius, height-radius]`. -/
def clampToWorld (position : Vec2) (radius : ℝ) (width height : ℝ) : Vec2 :=
  { x := max radius (min (width - radius) position.x),
    y := max radius (min (height - radius) position.y) }

end Physics

/-- The guard in `radiusFromMass` is redundant over the reals: `Real.sqrt`
is 0 on non-positive input, so the stored value is `sqrt(mass/pi)` for every
mass. -/
theorem radiusFromMass_eq_sqrt (mass : ℝ) :
    Physics.radiusFromMass mass = Real.sqrt (mass / Real.pi) := by
  unfold Physics.radiusFromMass
  split
  · next h =>
      rw [eq_comm, Real.sqrt_eq_zero']
      exact div_nonpos_of_nonpos_of_nonneg h Real.pi_pos.le
  · rfl

namespace PhysicsEngine

/-- `PhysicsEngine.calculateRadius` of PhysicsEngine.ts: `r = sqrt(m/pi)`
(no guard on the client side). -/
noncomputable def calculateRadius (mass : ℝ) : ℝ :=
  Real.sqrt (mass / Real.pi)

/-- `PhysicsEngine.calculateMass` of PhysicsEngine.ts: `m = pi * r^2`. -/
noncomputable def calculateMass (radius : ℝ) : ℝ :=
  Real.pi * radius * radius

/-- `PhysicsEngine.calculateMaxVelocity` of PhysicsEngine.ts:
`clamp(220 / m^(1/4), 18, 220)`. -/
noncomputable def calculateMaxVelocity (mass : ℝ) : ℝ :=
  max 18 (min 220 (220 / mass ^ ((1 : ℝ) / 4)))

end PhysicsEngine

/-- For positive mass the server and client speed formulas agree
(`0.25 = 1/4`). -/
theorem vMaxFromMass_eq_calculateMaxVelocity (mass : ℝ) (h : 0 < mass) :
    Physics.vMaxFromMass mass = PhysicsEngine.calculateMaxVelocity mass := by
  unfold Physics.vMaxFromMass PhysicsEngine.calculateMaxVelocity
  rw [if_neg (not_le.mpr h)]
  norm_num

/-- The common clamped-speed expression is antitone on positive masses. -/
theorem clampedSpeed_antitone (m1 m2 : ℝ) (h1 : 0 < m1) (h12 : m1 ≤ m2) :
    max 18 (min 220 (220 / m2 ^ ((1 : ℝ) / 4))) ≤
      max 18 (min 220 (220 / m1 ^ ((1 : ℝ) / 4))) := by
  have hp1 : (0 : ℝ) < m1 ^ ((1 : ℝ) / 4) := Real.rpow_pos_of_pos h1 _
  have hrp : m1 ^ ((1 : ℝ) / 4) ≤ m2 ^ ((1 : ℝ) / 4) :=
    Real.rpow_le_rpow h1.le h12 (by norm_num)
  have hdiv : 220 / m2 ^ ((1 : ℝ) / 4) ≤ 220 / m1 ^ ((1 : ℝ) / 4) :=
    div_le_div_of_nonneg_left (by norm_num) hp1 hrp
  exact max_le_max le_rfl (min_le_min le_rfl hdiv)

/-- **C9.** For masses `0 < m1 ≤ m2` both the server formula `vMaxFromMass`
and the client formula `calculateMaxVelocity` are non-increasing, and on
every positive mass both stay within `[18, 220]`. -/
theorem c9_vmax_monotone_bounded :
    (∀ m1 m2 : ℝ, 0 < m1 → m1 ≤ m2 →
      Physics.vMaxFromMass m2 ≤ Physics.vMaxFromMass m1 ∧
      PhysicsEngine.calculateMaxVelocity m2 ≤ PhysicsEngine.calculateMaxVelocity m1) ∧
    (∀ m : ℝ, 0 < m →
      18 ≤ Physics.vMaxFromMass m ∧ Physics.vMaxFromMass m ≤ 220 ∧
      18 ≤ PhysicsEngine.calculateMaxVelocity m ∧
      PhysicsEngine.calculateMaxVelocity m ≤ 220) := by
  have hbounds : ∀ m : ℝ, 0 < m →
      18 ≤ PhysicsEngine.calculateMaxVelocity m ∧
      PhysicsEngine.calculateMaxVelocity m ≤ 220 := by
    intro m _
    constructor
    · exact le_max_left _ _
    · exact max_le (by norm_num) (min_le_left _ _)
  constructor
  · intro m1 m2 h1 h12
    have h2 : 0 < m2 := lt_of_lt_of_le h1 h12
    have := clampedSpeed_antitone m1 m2 h1 h12
    constructor
    · rw [vMaxFromMass_eq_calculateMaxVelocity m1 h1,
        vMaxFromMass_eq_calculateMaxVelocity m2 h2]
      exact this
    · exact this
  · intro m hm
    obtain ⟨hlo, hhi⟩ := hbounds m hm
    refine ⟨?_, ?_, hlo, hhi⟩
    · rw [vMaxFromMass_eq_calculateMaxVelocity m hm]; exact hlo
    · rw [vMaxFromMass_eq_calculateMaxVelocity m hm]; exact hhi

namespace Physics

/-- `checkCollision` of physics.js: the circles overlap when the distance
between centers is below the sum of the radii. -/
def checkCollision (x1 y1 r1 x2 y2 r2 : ℝ) : Prop :=
  Real.sqrt ((x2 - x1) * (x2 - x1) + (y2 - y1) * (y2 - y1)) < r1 + r2

end Physics

namespace Game

open Classical

/-- Entity types appearing in game.js. -/
inductive EType where
  | player
  | fragment
  | pellet
  | bot
deriving DecidableEq

/-- A server entity as built by `createEntity` and mutated by the tick
phases of game.js. -/
structure Entity where
  id : String
  etype : EType
  x : ℝ
  y : ℝ
  vx : ℝ
  vy : ℝ
  mass : ℝ
  radius : ℝ
  isAlive : Bool
  killedBy : Option String
  deathTime : Option ℤ
  createdAt : ℤ
  lastInputTime : ℤ
  ownerId : Option String
  lifetime : Option ℤ
  role : Option String

/-- `canEat` of physics.js: the predator needs a strict 10% mass advantage. -/
def canEat (predator prey : Entity) : Prop :=
  predator.mass > prey.mass * 1.1

/-- `checkCollision` applied to two server entities. -/
def entitiesCollide (a b : Entity) : Prop :=
  Physics.checkCollision a.x a.y a.radius b.x b.y b.radius

/-- The fields `createEntity` of game.js reads from its `config` argument.
Absent fields fall back to the literal defaults of game.js; a `radius`
supplied by a caller is listed here because the object spread would copy it,
but the function always overwrites it from the mass afterwards. -/
structure EntityConfig where
  id : Option String := none
  etype : Option EType := none
  x : Option ℝ := none
  y : Option ℝ := none
  vx : Option ℝ := none
  vy : Option ℝ := none
  mass : Option ℝ := none
  radius : Option ℝ := none
  isAlive : Option Bool := none
  ownerId : Option String := none
  lifetime : Option ℤ := none
  role : Option String := none

/-- `createEntity` of game.js.  `genId` stands for the fresh `uuidv4()` and
`now` for `Date.now()`.  The final statement of the source recomputes
`entity.radius` from `entity.mass`, so any `config.radius` is discarded. -/
noncomputable def createEntity (now : ℤ) (genId : String) (cfg : EntityConfig) : Entity :=
  { id := cfg.id.getD genId,
    etype := cfg.etype.getD EType.player,
    x := cfg.x.getD 0,
    y := cfg.y.getD 0,
    vx := cfg.vx.getD 0,
    vy := cfg.vy.getD 0,
    mass := cfg.mass.getD 100,
    radius := Physics.radiusFromMass (cfg.mass.getD 100),
    isAlive := cfg.isAlive.getD true,
    killedBy := none,
    deathTime := none,
    createdAt := now,
    lastInputTime := now,
    ownerId := cfg.ownerId,
    lifetime := cfg.lifetime,
    role := cfg.role }

/-- `handleCollision` of game.js, as a function of the two colliding
entities (the source mutates them in place).  The first component is
entity A after the call, the second entity B. -/
noncomputable def handleCollision (now : ℤ) (a b : Entity) : Entity × Entity :=
  if canEat a b then
    let newMass := Physics.calculateNewMass a.mass b.mass 1
    ({ a with mass := newMass, radius := Physics.radiusFromMass newMass },
     { b with isAlive := false, killedBy := some a.id, deathTime := some now })
  else if canEat b a then
    let newMass := Physics.calculateNewMass b.mass a.mass 1
    ({ a with isAlive := false, killedBy := some b.id, deathTime := some now },
     { b with mass := newMass, radius := Physics.radiusFromMass newMass })
  else
    (a, b)

/-- One iteration of the pair loop of `processCollisions` of game.js:
`handleCollision` runs only when `Physics.checkCollision` reports overlap. -/
noncomputable def processCollisionsPair (now : ℤ) (a b : Entity) : Entity × Entity :=
  if entitiesCollide a b then handleCollision now a b else (a, b)

/-- The body of the `integratePhysics` loop of game.js for one entity:
Euler integration, damping, world clamping, and the (dead) border
velocity-halving branch.  The comparison `clampedPos !== entity` is made
after the entity's position has already been overwritten with the clamped
one, exactly as in the source. -/
noncomputable def integrateEntityStep (width height deltaTime : ℝ) (e : Entity) : Entity :=
  if e.etype = EType.pellet then e
  else
    let e1 := { e with x := e.x + e.vx * deltaTime, y := e.y + e.vy * deltaTime }
    let e2 := { e1 with vx := Physics.applyDamping e1.vx 0.98,
                        vy := Physics.applyDamping e1.vy 0.98 }
    let clamped := Physics.clampToWorld ⟨e2.x, e2.y⟩ e2.radius width height
    let e3 := { e2 with x := clamped.x, y := clamped.y }
    if ¬(clamped.x = e3.x) ∨ ¬(clamped.y = e3.y) then
      { e3 with vx := e3.vx * 0.5, vy := e3.vy * 0.5 }
    else e3

/-- `processSplitAction` of game.js as a function of the acting entity.
`genId` stands for the fragment's fresh uuid.  Returns the entity after the
call and the fragment, if one was spawned.  The fragment's position reads
`entity.radius` after the mass halving mutated it, as in the source. -/
noncomputable def processSplitAction (now : ℤ) (genId : String) (e : Entity) :
    Entity × Option Entity :=
  if e.mass < 50 then (e, none)
  else
    let newMass := e.mass / 2
    let e' := { e with mass := newMass, radius := Physics.radiusFromMass newMass }
    let fragment := createEntity now genId
      { etype := some EType.fragment,
        ownerId := some e.id,
        x := some (e'.x + e'.radius * 2),
        y := some e'.y,
        mass := some newMass,
        vx := some (e'.vx * 1.5),
        vy := some (e'.vy * 1.5),
        lifetime := some 30000 }
    (e', some fragment)

end Game

/-- A server entity with the non-simulation metadata fixed, used for
concrete instances. -/
noncomputable def sampleEntity (id : String) (mass x y vx vy radius : ℝ) : Game.Entity :=
  { id := id, etype := Game.EType.player, x := x, y := y, vx := vx, vy := vy,
    mass := mass, radius := radius, isAlive := true, killedBy := none,
    deathTime := none, createdAt := 0, lastInputTime := 0, ownerId := none,
    lifetime := none, role := none }

/-- **C7.** On a valid eat (`canEat` holds, efficiency defaulting to 1.0)
`handleCollision` gives the predator its old mass plus the prey's entire
mass, leaves the prey's mass in place, and marks the prey not-alive with
`killedBy` and a death timestamp. -/
theorem c7_eat_conserves_mass (now : ℤ) (a b : Game.Entity) (h : Game.canEat a b) :
    (Game.handleCollision now a b).1.mass = a.mass + b.mass ∧
    (Game.handleCollision now a b).2.mass = b.mass ∧
    (Game.handleCollision now a b).2.isAlive = false ∧
    (Game.handleCollision now a b).2.killedBy = some a.id ∧
    (Game.handleCollision now a b).2.deathTime = some now := by
  unfold Game.handleCollision
  rw [if_pos h]
  simp [Physics.calculateNewMass]

/-- Witness for C7: a mass-300 predator eats a coincident mass-100 prey. -/
theorem c7_eat_conserves_mass_witness :
    Game.canEat (sampleEntity "A" 300 0 0 0 0 10) (sampleEntity "B" 100 0 0 0 0 6) ∧
    (Game.handleCollision 7 (sampleEntity "A" 300 0 0 0 0 10)
        (sampleEntity "B" 100 0 0 0 0 6)).1.mass = 300 + 100 ∧
    (Game.handleCollision 7 (sampleEntity "A" 300 0 0 0 0 10)
        (sampleEntity "B" 100 0 0 0 0 6)).2.isAlive = false := by
  have h : Game.canEat (sampleEntity "A" 300 0 0 0 0 10) (sampleEntity "B" 100 0 0 0 0 6) := by
    show (sampleEntity "A" 300 0 0 0 0 10).mass > (sampleEntity "B" 100 0 0 0 0 6).mass * 1.1
    norm_num [sampleEntity]
  have hc := c7_eat_conserves_mass 7 _ _ h
  refine ⟨h, ?_, hc.2.2.1⟩
  rw [hc.1]
  norm_num [sampleEntity]

/-- In `integrateEntityStep` the halving branch is unreachable: for every
non-pellet entity the resulting velocity is exactly the damped one,
whether or not clamping moved the position. -/
theorem integrateEntityStep_velocity_only_damped (width height deltaTime : ℝ)
    (e : Game.Entity) (h : ¬(e.etype = Game.EType.pellet)) :
    (Game.integrateEntityStep width height deltaTime e).vx = e.vx * 0.98 ∧
    (Game.integrateEntityStep width height deltaTime e).vy = e.vy * 0.98 := by
  unfold Game.integrateEntityStep
  rw [if_neg h]
  simp [Physics.applyDamping]

/-- The concrete player of the C2 failing input: it sits near the right
wall and moves right fast enough that Euler integration leaves the world. -/
noncomputable def c2Entity : Game.Entity :=
  sampleEntity "p" (100 * Real.pi) 1995 1000 100 0 10

/-- **C2.** Failing input for the border bounce-absorb rule, evaluated on
the embedded `integratePhysics` body with the default 2000x2000 world and
`dt = 1/10`: Euler integration puts the entity at `x = 2005`, clamping
pulls it back to `x = 1990` (so clamping altered the position), yet the
resulting velocity is the merely damped `vx = 98`, not the halved `49` the
specification requires.  The source compares the clamped position against
the entity position it has already overwritten, so the halving branch
never runs. -/
theorem c2_wall_clamp_bug :
    c2Entity.radius = Physics.radiusFromMass c2Entity.mass ∧
    c2Entity.x + c2Entity.vx * (1 / 10) = 2005 ∧
    (Game.integrateEntityStep 2000 2000 (1 / 10) c2Entity).x = 1990 ∧
    (Game.integrateEntityStep 2000 2000 (1 / 10) c2Entity).vx = 98 ∧
    ¬((Game.integrateEntityStep 2000 2000 (1 / 10) c2Entity).vx = 49) := by
  have hradius : Physics.radiusFromMass (100 * Real.pi) = 10 := by
    rw [radiusFromMass_eq_sqrt]
    rw [mul_div_assoc, div_self Real.pi_pos.ne', mul_one]
    rw [show (100 : ℝ) = 10 ^ 2 by norm_num, Real.sqrt_sq (by norm_num)]
  have hstep : ∀ p : Game.Entity, p = c2Entity →
      (Game.integrateEntityStep 2000 2000 (1 / 10) p).x = 1990 ∧
      (Game.integrateEntityStep 2000 2000 (1 / 10) p).vx = 98 := by
    intro p hp
    subst hp
    unfold Game.integrateEntityStep
    rw [if_neg (by simp [c2Entity, sampleEntity])]
    simp only [c2Entity, sampleEntity, Physics.applyDamping, Physics.clampToWorld]
    rw [if_neg (by simp)]
    norm_num [min_def, max_def]
  obtain ⟨hx, hvx⟩ := hstep c2Entity rfl
  refine ⟨by simp [c2Entity, sampleEntity, hradius], by norm_num [c2Entity, sampleEntity],
    hx, hvx, by rw [hvx]; norm_num⟩

namespace Game

/-- JavaScript `Math.round`: nearest integer, halves toward positive
infinity. -/
noncomputable def roundJS (x : ℝ) : ℤ :=
  ⌊x + 1 / 2⌋

/-- An integer 2D vector as it appears in the delta payload. -/
structure IVec2 where
  x : ℤ
  y : ℤ
deriving DecidableEq

/-- The `stats` object of game.js. -/
structure Stats where
  totalPlayers : ℕ
  activePlayers : ℕ
  pelletsCount : ℕ
  actionsProcessed : ℕ
  lastStepDuration : ℚ
deriving DecidableEq

/-- The whole-game state read by `generateDelta`. -/
structure GameState where
  entities : List Entity
  currentTick : ℕ
  stats : Stats

/-- One entity record of the delta payload built by `generateDelta`. -/
structure DeltaEntity where
  id : String
  pos : IVec2
  vel : IVec2
  mass : ℤ
  radius : ℤ
  etype : EType
  role : String
  isAlive : Bool

/-- The per-entity body of `generateDelta`: every numeric field is passed
through `Math.round`; a missing role falls back to `'basic'`. -/
noncomputable def deltaEntityOf (e : Entity) : DeltaEntity :=
  { id := e.id,
    pos := { x := roundJS e.x, y := roundJS e.y },
    vel := { x := roundJS e.vx, y := roundJS e.vy },
    mass := roundJS e.mass,
    radius := roundJS e.radius,
    etype := e.etype,
    role := e.role.getD "basic",
    isAlive := e.isAlive }

/-- The payload of `generateDelta` of game.js. -/
structure Delta where
  kind : String
  tick : ℕ
  entities : List DeltaEntity
  serverTs : ℤ
  stats : Stats

/-- `generateDelta` of game.js: a pure read of the game state; the
entities of the simulation state are not modified, only their rounded
images are emitted. -/
noncomputable def generateDelta (now : ℤ) (st : GameState) : Delta :=
  { kind := "delta",
    tick := st.currentTick,
    entities := st.entities.map deltaEntityOf,
    serverTs := now,
    stats := st.stats }

end Game

namespace Realtime

/-- `publishWorldUpdate` of the realtime server source bundled in
src/backend/README.md: send the delta payload on every tick and, when
`deltaPayload.tick % 50 === 0` (every 5 seconds at 10Hz), additionally send
the same payload with `kind` replaced by `"snapshot"`.  Returned is the
list of payloads handed to `room.channel.send`, in order; the constant
broadcast envelope and the try/catch are not simulation state. -/
def publishWorldUpdate (deltaPayload : Game.Delta) : List Game.Delta :=
  [deltaPayload] ++
    (if deltaPayload.tick % 50 = 0 then [{ deltaPayload with kind := "snapshot" }] else [])

end Realtime

/-- **C4.** Each tick's payload has kind `"delta"`, and exactly on every
50th tick a second payload, identical except for `kind = "snapshot"`, is
emitted alongside it. -/
theorem c4_snapshot_every_50_ticks :
    ∀ (now : ℤ) (st : Game.GameState),
      (Game.generateDelta now st).kind = "delta" ∧
      (st.currentTick % 50 = 0 →
        Realtime.publishWorldUpdate (Game.generateDelta now st) =
          [Game.generateDelta now st,
           { Game.generateDelta now st with kind := "snapshot" }]) ∧
      (st.currentTick % 50 ≠ 0 →
        Realtime.publishWorldUpdate (Game.generateDelta now st) =
          [Game.generateDelta now st]) := by
  intro now st
  refine ⟨rfl, ?_, ?_⟩
  · intro h
    simp [Realtime.publishWorldUpdate, Game.generateDelta, h]
  · intro h
    simp [Realtime.publishWorldUpdate, Game.generateDelta, h]

/-- **C10.** The emitted payload quantizes every entity: each record is the
image of a simulation entity with position, velocity, mass and radius
rounded (`Math.round`, i.e. to within 1/2 of the true value), while
`generateDelta` only maps over the stored entities — the simulation state
itself is read, not altered. -/
theorem c10_delta_quantized :
    (∀ (now : ℤ) (st : Game.GameState),
      (Game.generateDelta now st).entities = st.entities.map Game.deltaEntityOf ∧
      (Game.generateDelta now st).stats = st.stats ∧
      (Game.generateDelta now st).tick = st.currentTick) ∧
    (∀ e : Game.Entity,
      (Game.deltaEntityOf e).pos.x = Game.roundJS e.x ∧
      (Game.deltaEntityOf e).pos.y = Game.roundJS e.y ∧
      (Game.deltaEntityOf e).vel.x = Game.roundJS e.vx ∧
      (Game.deltaEntityOf e).vel.y = Game.roundJS e.vy ∧
      (Game.deltaEntityOf e).mass = Game.roundJS e.mass ∧
      (Game.deltaEntityOf e).radius = Game.roundJS e.radius ∧
      (Game.deltaEntityOf e).id = e.id ∧
      (Game.deltaEntityOf e).isAlive = e.isAlive) ∧
    (∀ x : ℝ, |(Game.roundJS x : ℝ) - x| ≤ 1 / 2) := by
  refine ⟨fun now st => ⟨rfl, rfl, rfl⟩,
    fun e => ⟨rfl, rfl, rfl, rfl, rfl, rfl, rfl, rfl⟩, fun x => ?_⟩
  rw [abs_le]
  constructor
  · have := Int.lt_floor_add_one (x + 1 / 2)
    unfold Game.roundJS
    linarith
  · have := Int.floor_le (x + 1 / 2)
    unfold Game.roundJS
    linarith

namespace Game

/-- A queued player action (`{type, playerId, ...}` in game.js; the payload
is irrelevant to the queue mechanics). -/
structure Action where
  atype : String
  playerId : String
deriving DecidableEq

/-- The drain loop of `processActionQueue` of game.js.  `cost` abstracts the
wall-clock time `processAction` spends on one action and `elapsed` the time
spent so far; the source shifts the head, processes it and only then
compares the elapsed time against the 50ms budget, breaking out with the
rest still queued.  Returns the processed batch (in order) and the
remaining queue. -/
def processActionQueueAux (cost : Action → ℚ) : ℚ → List Action → List Action × List Action
  | _, [] => ([], [])
  | elapsed, a :: rest =>
    if 50 < elapsed + cost a then ([a], rest)
    else ((a :: (processActionQueueAux cost (elapsed + cost a) rest).1),
          (processActionQueueAux cost (elapsed + cost a) rest).2)

/-- `processActionQueue` of game.js: drain from the front with the elapsed
time starting at zero. -/
def processActionQueue (cost : Action → ℚ) (queue : List Action) :
    List Action × List Action :=
  processActionQueueAux cost 0 queue

end Game

/-- Inductive characterisation of the drain loop: the queue splits into the
processed batch followed by the untouched remainder; a non-empty remainder
means the budget was exceeded; and the loop never continued past the budget
(every proper front part of the batch fits in it). -/
theorem processActionQueueAux_spec (cost : Game.Action → ℚ) :
    ∀ (q : List Game.Action) (elapsed : ℚ), elapsed ≤ 50 →
      q = (Game.processActionQueueAux cost elapsed q).1 ++
            (Game.processActionQueueAux cost elapsed q).2 ∧
      ((Game.processActionQueueAux cost elapsed q).2 ≠ [] →
        50 < elapsed + (((Game.processActionQueueAux cost elapsed q).1).map cost).sum) ∧
      (∀ p, p <+: (Game.processActionQueueAux cost elapsed q).1 →
        p ≠ (Game.processActionQueueAux cost elapsed q).1 →
        elapsed + ((p.map cost).sum) ≤ 50) := by
  intro q
  induction q with
  | nil =>
      intro elapsed _
      refine ⟨rfl, by simp [Game.processActionQueueAux], ?_⟩
      intro p hp hne
      simp only [Game.processActionQueueAux] at hp hne
      rw [List.prefix_nil] at hp
      exact absurd hp hne
  | cons a rest ih =>
      intro elapsed helapsed
      by_cases hbudget : 50 < elapsed + cost a
      · have h1 : (Game.processActionQueueAux cost elapsed (a :: rest)).1 = [a] := by
          simp [Game.processActionQueueAux, hbudget]
        have h2 : (Game.processActionQueueAux cost elapsed (a :: rest)).2 = rest := by
          simp [Game.processActionQueueAux, hbudget]
        rw [h1, h2]
        refine ⟨rfl, fun _ => by simpa using hbudget, ?_⟩
        intro p hp hne
        rcases p with _ | ⟨y, ys⟩
        · simpa using helapsed
        · rw [List.cons_prefix_cons] at hp
          obtain ⟨rfl, hys⟩ := hp
          rw [List.prefix_nil] at hys
          subst hys
          exact absurd rfl hne
      · have hle : elapsed + cost a ≤ 50 := le_of_not_lt hbudget
        obtain ⟨hdec, hover, hpref⟩ := ih (elapsed + cost a) hle
        have h1 : (Game.processActionQueueAux cost elapsed (a :: rest)).1 =
            a :: (Game.processActionQueueAux cost (elapsed + cost a) rest).1 := by
          simp [Game.processActionQueueAux, hbudget]
        have h2 : (Game.processActionQueueAux cost elapsed (a :: rest)).2 =
            (Game.processActionQueueAux cost (elapsed + cost a) rest).2 := by
          simp [Game.processActionQueueAux, hbudget]
        rw [h1, h2]
        refine ⟨by rw [List.cons_append, ← hdec], ?_, ?_⟩
        · intro hne
          have := hover hne
          simp only [List.map_cons, List.sum_cons]
          linarith
        · intro p hp hne
          rcases p with _ | ⟨y, ys⟩
          · simpa using helapsed
          · rw [List.cons_prefix_cons] at hp
            obtain ⟨rfl, hys⟩ := hp
            have hysne : ys ≠ (Game.processActionQueueAux cost (elapsed + cost y) rest).1 :=
              fun hcontra => hne (by rw [hcontra])
            have := hpref ys hys hysne
            simp only [List.map_cons, List.sum_cons]
            linarith

/-- **C8.** The per-tick drain applies a contiguous front batch of the
queue in arrival order (the queue is exactly that batch followed by the
unprocessed remainder, which stays at the front for the next tick, so no
action is lost); the remainder is non-empty only when the cumulative
processing time exceeded the 50ms budget, and the loop never kept draining
once the budget was spent (every proper front part of the batch cost at
most 50ms). -/
theorem c8_queue_drain_fifo_prefix :
    ∀ (cost : Game.Action → ℚ) (q : List Game.Action),
      q = (Game.processActionQueue cost q).1 ++ (Game.processActionQueue cost q).2 ∧
      ((Game.processActionQueue cost q).2 ≠ [] →
        50 < (((Game.processActionQueue cost q).1).map cost).sum) ∧
      (∀ p, p <+: (Game.processActionQueue cost q).1 →
        p ≠ (Game.processActionQueue cost q).1 → ((p.map cost).sum) ≤ 50) := by
  intro cost q
  obtain ⟨hdec, hover, hpref⟩ := processActionQueueAux_spec cost q 0 (by norm_num)
  unfold Game.processActionQueue
  refine ⟨hdec, ?_, ?_⟩
  · intro hne
    have := hover hne
    linarith
  · intro p hp hne
    have := hpref p hp hne
    linarith

namespace PhysicsEngine

open Classical

/-- Entity types of PhysicsEngine.ts. -/
inductive CType where
  | player
  | pellet
  | bot
deriving DecidableEq

/-- The `Entity` interface of PhysicsEngine.ts. -/
structure Entity where
  id : String
  etype : CType
  position : Physics.Vec2
  velocity : Physics.Vec2
  mass : ℝ
  radius : ℝ

/-- The `checkCollision` method of PhysicsEngine.ts. -/
def checkCollision (entity1 entity2 : Entity) : Prop :=
  Real.sqrt ((entity1.position.x - entity2.position.x) * (entity1.position.x - entity2.position.x) +
      (entity1.position.y - entity2.position.y) * (entity1.position.y - entity2.position.y)) <
    entity1.radius + entity2.radius

end PhysicsEngine

/-- The `SpatialHashGrid` class of SpatialHashGrid.ts.  The cell map and the
per-entity recorded cell lists are modelled as functions; a cell key
`"x,y"` as the integer pair. -/
structure SpatialHashGrid where
  cellSize : ℝ
  cells : ℤ × ℤ → Set String
  entityCells : String → Option (Set (ℤ × ℤ))

namespace SpatialHashGrid

open Classical

/-- `getEntityCells` of SpatialHashGrid.ts: all cells between the floors of
the sides of the entity's bounding box. -/
def getEntityCells (cellSize : ℝ) (e : PhysicsEngine.Entity) : Set (ℤ × ℤ) :=
  {k : ℤ × ℤ |
    ⌊(e.position.x - e.radius) / cellSize⌋ ≤ k.1 ∧
    k.1 ≤ ⌊(e.position.x + e.radius) / cellSize⌋ ∧
    ⌊(e.position.y - e.radius) / cellSize⌋ ≤ k.2 ∧
    k.2 ≤ ⌊(e.position.y + e.radius) / cellSize⌋}

/-- `insert`: register the entity id in every overlapped cell and record
that cell set against the id. -/
noncomputable def insert (g : SpatialHashGrid) (e : PhysicsEngine.Entity) : SpatialHashGrid :=
  { g with
    cells := fun k =>
      if k ∈ getEntityCells g.cellSize e then g.cells k ∪ {e.id} else g.cells k,
    entityCells := fun s =>
      if s = e.id then some (getEntityCells g.cellSize e) else g.entityCells s }

/-- `remove`: delete the id from every cell previously recorded for it. -/
noncomputable def remove (g : SpatialHashGrid) (entityId : String) : SpatialHashGrid :=
  { g with
    cells := fun k =>
      if k ∈ (g.entityCells entityId).getD ∅ then g.cells k \ {entityId} else g.cells k,
    entityCells := fun s => if s = entityId then none else g.entityCells s }

/-- `update` is `remove` followed by `insert`. -/
noncomputable def update (g : SpatialHashGrid) (e : PhysicsEngine.Entity) : SpatialHashGrid :=
  insert (remove g e.id) e

/-- `query`: the ids sharing any cell with the entity, the entity itself
excluded. -/
def query (g : SpatialHashGrid) (e : PhysicsEngine.Entity) : Set String :=
  {s | ¬(s = e.id) ∧ ∃ k ∈ getEntityCells g.cellSize e, s ∈ g.cells k}

/-- `clear`: drop every cell and record. -/
def clear (g : SpatialHashGrid) : SpatialHashGrid :=
  { cellSize := g.cellSize, cells := fun _ => ∅, entityCells := fun _ => none }

/-- `rebuild`: clear, then insert every entity. -/
noncomputable def rebuild (g : SpatialHashGrid) (entities : List PhysicsEngine.Entity) :
    SpatialHashGrid :=
  entities.foldl insert (clear g)

/-- A fresh grid with the given cell size (the constructor). -/
def emptyGrid (cellSize : ℝ) : SpatialHashGrid :=
  { cellSize := cellSize, cells := fun _ => ∅, entityCells := fun _ => none }

end SpatialHashGrid

namespace PhysicsEngine

open Classical

/-- The entity store of one `PhysicsEngine` instance: the `entities` map
and its spatial grid. -/
structure State where
  entities : String → Option Entity
  spatialGrid : SpatialHashGrid

/-- The `createEntity` method: build the entity with the radius computed
from the mass, store it and insert it into the spatial grid. -/
noncomputable def createEntity (st : State) (id : String) (etype : CType) (mass : ℝ)
    (position : Physics.Vec2) : State × Entity :=
  let e : Entity :=
    { id := id, etype := etype, position := position, velocity := ⟨0, 0⟩,
      mass := mass, radius := calculateRadius mass }
  ({ entities := fun s => if s = id then some e else st.entities s,
     spatialGrid := st.spatialGrid.insert e }, e)

/-- The `updateEntityMass` method: set the mass, recompute the radius, and
refresh the spatial grid. -/
noncomputable def updateEntityMass (st : State) (entityId : String) (newMass : ℝ) : State :=
  match st.entities entityId with
  | none => st
  | some e =>
      let e' := { e with mass := newMass, radius := calculateRadius newMass }
      { entities := fun s => if s = entityId then some e' else st.entities s,
        spatialGrid := st.spatialGrid.update e' }

/-- The `applyMovement` method: velocity is the normalized direction times
the mass-derived speed cap; a zero direction zeroes the velocity. -/
noncomputable def applyMovement (st : State) (entityId : String)
    (direction : Physics.Vec2) : State :=
  match st.entities entityId with
  | none => st
  | some e =>
      let maxVelocity := calculateMaxVelocity e.mass
      let magnitude := Real.sqrt (direction.x * direction.x + direction.y * direction.y)
      let v : Physics.Vec2 :=
        if 0 < magnitude then
          ⟨direction.x / magnitude * maxVelocity, direction.y / magnitude * maxVelocity⟩
        else ⟨0, 0⟩
      { st with entities := fun s => if s = entityId then some { e with velocity := v }
          else st.entities s }

/-- The `removeEntity` method: drop the entity from the grid and the map. -/
noncomputable def removeEntity (st : State) (id : String) : State :=
  { entities := fun s => if s = id then none else st.entities s,
    spatialGrid := st.spatialGrid.remove id }

/-- The `processEatingCollision` method of PhysicsEngine.ts.  Note the
eligibility test is only `predator.radius <= prey.radius → no eat`; on
success the prey's mass is added to the predator and the prey is deleted
from the entity map. -/
noncomputable def processEatingCollision (st : State) (predatorId preyId : String) :
    State × Bool :=
  match st.entities predatorId, st.entities preyId with
  | some predator, some prey =>
      if predator.radius ≤ prey.radius then (st, false)
      else if checkCollision predator prey then
        let st1 := updateEntityMass st predatorId (predator.mass + prey.mass)
        ({ st1 with entities := fun s => if s = preyId then none else st1.entities s }, true)
      else (st, false)
  | _, _ => (st, false)

end PhysicsEngine

/-- Reduction of `processEatingCollision` when both entities resolve. -/
theorem processEatingCollision_eq (st : PhysicsEngine.State) (pid qid : String)
    (p q : PhysicsEngine.Entity)
    (hp : st.entities pid = some p) (hq : st.entities qid = some q) :
    PhysicsEngine.processEatingCollision st pid qid =
      if q.radius < p.radius then
        (if PhysicsEngine.checkCollision p q then
          ({ PhysicsEngine.updateEntityMass st pid (p.mass + q.mass) with
             entities := fun s => if s = qid then none
               else (PhysicsEngine.updateEntityMass st pid (p.mass + q.mass)).entities s }, true)
        else (st, false))
      else (st, false) := by
  unfold PhysicsEngine.processEatingCollision
  rw [hp, hq]
  show (if p.radius ≤ q.radius then (st, false)
      else if PhysicsEngine.checkCollision p q then
        ({ PhysicsEngine.updateEntityMass st pid (p.mass + q.mass) with
           entities := fun s => if s = qid then none
             else (PhysicsEngine.updateEntityMass st pid (p.mass + q.mass)).entities s }, true)
      else (st, false)) = _
  by_cases h1 : p.radius ≤ q.radius
  · rw [if_pos h1, if_neg (not_lt.mpr h1)]
  · rw [if_neg h1, if_pos (not_le.mp h1)]

/-- **C1 (amended).** Server path: in the collision pass, whichever element
of the pair is consumed — the second (prey listed after the predator) or
the first (prey listed before it) — the consumer had the strict 10% mass
advantage *and* the circles overlapped.  Client path:
`processEatingCollision` consumes exactly when the predator's radius is
strictly larger and the circles overlap — the 10% mass rule is absent
there. -/
theorem c1_eating_rule_amended :
    (∀ (now : ℤ) (a b : Game.Entity), b.isAlive = true →
      (Game.processCollisionsPair now a b).2.isAlive = false →
        Game.canEat a b ∧ Game.entitiesCollide a b) ∧
    (∀ (now : ℤ) (a b : Game.Entity), a.isAlive = true →
      (Game.processCollisionsPair now a b).1.isAlive = false →
        Game.canEat b a ∧ Game.entitiesCollide a b) ∧
    (∀ (st : PhysicsEngine.State) (pid qid : String) (p q : PhysicsEngine.Entity),
      st.entities pid = some p → st.entities qid = some q →
      ((PhysicsEngine.processEatingCollision st pid qid).2 = true ↔
        (q.radius < p.radius ∧ PhysicsEngine.checkCollision p q))) := by
  refine ⟨?_, ?_, ?_⟩
  · intro now a b halive hdead
    unfold Game.processCollisionsPair at hdead
    by_cases hcol : Game.entitiesCollide a b
    · rw [if_pos hcol] at hdead
      unfold Game.handleCollision at hdead
      by_cases h1 : Game.canEat a b
      · exact ⟨h1, hcol⟩
      · rw [if_neg h1] at hdead
        by_cases h2 : Game.canEat b a
        · rw [if_pos h2] at hdead
          have hb : b.isAlive = false := hdead
          rw [halive] at hb
          exact absurd hb (by decide)
        · rw [if_neg h2] at hdead
          have hb : b.isAlive = false := hdead
          rw [halive] at hb
          exact absurd hb (by decide)
    · rw [if_neg hcol] at hdead
      have hb : b.isAlive = false := hdead
      rw [halive] at hb
      exact absurd hb (by decide)
  · intro now a b halive hdead
    unfold Game.processCollisionsPair at hdead
    by_cases hcol : Game.entitiesCollide a b
    · rw [if_pos hcol] at hdead
      unfold Game.handleCollision at hdead
      by_cases h1 : Game.canEat a b
      · rw [if_pos h1] at hdead
        have ha : a.isAlive = false := hdead
        rw [halive] at ha
        exact absurd ha (by decide)
      · rw [if_neg h1] at hdead
        by_cases h2 : Game.canEat b a
        · exact ⟨h2, hcol⟩
        · rw [if_neg h2] at hdead
          have ha : a.isAlive = false := hdead
          rw [halive] at ha
          exact absurd ha (by decide)
    · rw [if_neg hcol] at hdead
      have ha : a.isAlive = false := hdead
      rw [halive] at ha
      exact absurd ha (by decide)
  · intro st pid qid p q hp hq
    rw [processEatingCollision_eq st pid qid p q hp hq]
    by_cases h1 : q.radius < p.radius
    · rw [if_pos h1]
      by_cases h2 : PhysicsEngine.checkCollision p q
      · rw [if_pos h2]
        exact ⟨fun _ => ⟨h1, h2⟩, fun _ => rfl⟩
      · rw [if_neg h2]
        constructor
        · intro h
          simp at h
        · rintro ⟨_, hcol⟩
          exact absurd hcol h2
    · rw [if_neg h1]
      constructor
      · intro h
        simp at h
      · rintro ⟨hlt, _⟩
        exact absurd hlt h1

/-- The client-path predator of the C1 counterexample: mass 110 with the
radius the engine derives from it. -/
noncomputable def c1Predator : PhysicsEngine.Entity :=
  { id := "A", etype := PhysicsEngine.CType.player, position := ⟨0, 0⟩,
    velocity := ⟨0, 0⟩, mass := 110, radius := PhysicsEngine.calculateRadius 110 }

/-- The client-path prey of the C1 counterexample: coincident mass-100
entity. -/
noncomputable def c1Prey : PhysicsEngine.Entity :=
  { id := "B", etype := PhysicsEngine.CType.player, position := ⟨0, 0⟩,
    velocity := ⟨0, 0⟩, mass := 100, radius := PhysicsEngine.calculateRadius 100 }

/-- The engine state holding the two C1 entities. -/
noncomputable def c1State : PhysicsEngine.State :=
  { entities := fun s =>
      if s = "A" then some c1Predator else if s = "B" then some c1Prey else none,
    spatialGrid := SpatialHashGrid.emptyGrid 150 }

/-- The predator entity after the C1 client-path eat. -/
noncomputable def c1PredatorAfter : PhysicsEngine.Entity :=
  { c1Predator with
    mass := c1Predator.mass + c1Prey.mass,
    radius := PhysicsEngine.calculateRadius (c1Predator.mass + c1Prey.mass) }

/-- **C1 counterexample.** The predator's mass 110 does *not* exceed
`prey.mass * 1.1 = 110`, yet the client eating path consumes the prey: the
call reports an eat, deletes the prey and credits the predator with mass
210.  This refutes "a predator with `A.mass ≤ B.mass × 1.1` never consumes
B ... in the client eating path". -/
theorem c1_client_mass_rule_cex :
    c1Predator.mass ≤ c1Prey.mass * 1.1 ∧
    (PhysicsEngine.processEatingCollision c1State "A" "B").2 = true ∧
    (PhysicsEngine.processEatingCollision c1State "A" "B").1.entities "B" = none ∧
    (∃ p', (PhysicsEngine.processEatingCollision c1State "A" "B").1.entities "A" = some p' ∧
      p'.mass = 210) := by
  have hA : c1State.entities "A" = some c1Predator := by
    simp [c1State]
  have hB : c1State.entities "B" = some c1Prey := by
    simp [c1State]
  have hradius : c1Prey.radius < c1Predator.radius := by
    show PhysicsEngine.calculateRadius 100 < PhysicsEngine.calculateRadius 110
    unfold PhysicsEngine.calculateRadius
    apply Real.sqrt_lt_sqrt (by positivity)
    rw [div_lt_div_iff_of_pos_right Real.pi_pos]
    norm_num
  have hcol : PhysicsEngine.checkCollision c1Predator c1Prey := by
    unfold PhysicsEngine.checkCollision
    have hz : ((0 : ℝ) - 0) * ((0 : ℝ) - 0) + ((0 : ℝ) - 0) * ((0 : ℝ) - 0) = 0 := by norm_num
    show Real.sqrt ((c1Predator.position.x - c1Prey.position.x) * _ + _) < _
    have hpos : (0 : ℝ) < c1Predator.radius + c1Prey.radius := by
      have h1 : (0 : ℝ) < c1Predator.radius := by
        show (0 : ℝ) < PhysicsEngine.calculateRadius 110
        unfold PhysicsEngine.calculateRadius
        exact Real.sqrt_pos.mpr (by positivity)
      have h2 : (0 : ℝ) ≤ c1Prey.radius := Real.sqrt_nonneg _
      linarith
    calc Real.sqrt ((c1Predator.position.x - c1Prey.position.x) *
            (c1Predator.position.x - c1Prey.position.x) +
          (c1Predator.position.y - c1Prey.position.y) *
            (c1Predator.position.y - c1Prey.position.y)) = 0 := by
            show Real.sqrt (((0 : ℝ) - 0) * ((0 : ℝ) - 0) + ((0 : ℝ) - 0) * ((0 : ℝ) - 0)) = 0
            rw [hz, Real.sqrt_zero]
      _ < c1Predator.radius + c1Prey.radius := hpos
  have hmain : PhysicsEngine.processEatingCollision c1State "A" "B" =
      ({ PhysicsEngine.updateEntityMass c1State "A" (c1Predator.mass + c1Prey.mass) with
         entities := fun s => if s = "B" then none
           else (PhysicsEngine.updateEntityMass c1State "A"
             (c1Predator.mass + c1Prey.mass)).entities s }, true) := by
    rw [processEatingCollision_eq c1State "A" "B" c1Predator c1Prey hA hB]
    rw [if_pos hradius, if_pos hcol]
  refine ⟨?_, ?_, ?_, ?_⟩
  · show (110 : ℝ) ≤ 100 * 1.1
    norm_num
  · rw [hmain]
  · rw [hmain]
    simp
  · refine ⟨c1PredatorAfter, ?_, ?_⟩
    · rw [hmain]
      show (if ("A" : String) = "B" then none
          else (PhysicsEngine.updateEntityMass c1State "A"
            (c1Predator.mass + c1Prey.mass)).entities "A") = _
      rw [if_neg (by decide)]
      unfold PhysicsEngine.updateEntityMass
      rw [hA]
      simp
      rfl
    · show c1Predator.mass + c1Prey.mass = 210
      show (110 : ℝ) + 100 = 210
      norm_num


/-- `insert` keeps the cell size. -/
theorem insert_cellSize (g : SpatialHashGrid) (e : PhysicsEngine.Entity) :
    (g.insert e).cellSize = g.cellSize := rfl

/-- Folded `insert`s keep the cell size. -/
theorem foldl_insert_cellSize (es : List PhysicsEngine.Entity) (g : SpatialHashGrid) :
    (es.foldl SpatialHashGrid.insert g).cellSize = g.cellSize := by
  induction es generalizing g with
  | nil => rfl
  | cons e rest ih => rw [List.foldl_cons, ih, insert_cellSize]

/-- `insert` never removes an id from a cell. -/
theorem insert_cells_mono (g : SpatialHashGrid) (e : PhysicsEngine.Entity)
    (k : ℤ × ℤ) (s : String) (hs : s ∈ g.cells k) : s ∈ (g.insert e).cells k := by
  unfold SpatialHashGrid.insert
  dsimp only
  split
  · exact Set.mem_union_left _ hs
  · exact hs

/-- Folded `insert`s never remove an id from a cell. -/
theorem foldl_insert_cells_mono (es : List PhysicsEngine.Entity) (g : SpatialHashGrid)
    (k : ℤ × ℤ) (s : String) (hs : s ∈ g.cells k) :
    s ∈ (es.foldl SpatialHashGrid.insert g).cells k := by
  induction es generalizing g with
  | nil => exact hs
  | cons a rest ih =>
      rw [List.foldl_cons]
      exact ih (g.insert a) (insert_cells_mono g a k s hs)

/-- `insert` registers the entity's id in each of its cells. -/
theorem insert_registers (g : SpatialHashGrid) (e : PhysicsEngine.Entity)
    (k : ℤ × ℤ) (hk : k ∈ SpatialHashGrid.getEntityCells g.cellSize e) :
    e.id ∈ (g.insert e).cells k := by
  unfold SpatialHashGrid.insert
  dsimp only
  rw [if_pos hk]
  exact Set.mem_union_right _ rfl

/-- After folding `insert` over a list, every listed entity is registered in
every cell its bounding box overlaps. -/
theorem foldl_insert_registers (es : List PhysicsEngine.Entity) (g : SpatialHashGrid)
    (e : PhysicsEngine.Entity) (he : e ∈ es) (k : ℤ × ℤ)
    (hk : k ∈ SpatialHashGrid.getEntityCells g.cellSize e) :
    e.id ∈ (es.foldl SpatialHashGrid.insert g).cells k := by
  induction es generalizing g with
  | nil => cases he
  | cons a rest ih =>
      rw [List.foldl_cons]
      rcases List.mem_cons.mp he with rfl | hmem
      · exact foldl_insert_cells_mono rest _ k e.id (insert_registers g e k hk)
      · refine ih (g.insert a) hmem ?_
        rw [insert_cellSize]
        exact hk

/-- Two overlapping circles share a grid cell: the componentwise maximum of
the two bounding-box minima lies in both floor ranges. -/
theorem overlap_shares_cell (c : ℝ) (hc : 0 < c) (e1 e2 : PhysicsEngine.Entity)
    (h1 : 0 ≤ e1.radius) (h2 : 0 ≤ e2.radius)
    (hov : PhysicsEngine.checkCollision e1 e2) :
    ∃ k : ℤ × ℤ, k ∈ SpatialHashGrid.getEntityCells c e1 ∧
      k ∈ SpatialHashGrid.getEntityCells c e2 := by
  have habs : ∀ dx dy : ℝ, Real.sqrt (dx * dx + dy * dy) < e1.radius + e2.radius →
      |dx| < e1.radius + e2.radius := by
    intro dx dy h
    calc |dx| = Real.sqrt (dx * dx) := (Real.sqrt_mul_self_eq_abs dx).symm
      _ ≤ Real.sqrt (dx * dx + dy * dy) := Real.sqrt_le_sqrt (by nlinarith [sq_nonneg dy])
      _ < e1.radius + e2.radius := h
  have hdx : |e1.position.x - e2.position.x| < e1.radius + e2.radius :=
    habs (e1.position.x - e2.position.x) (e1.position.y - e2.position.y) hov
  have hdy : |e1.position.y - e2.position.y| < e1.radius + e2.radius := by
    refine habs (e1.position.y - e2.position.y) (e1.position.x - e2.position.x) ?_
    have hcomm : (e1.position.y - e2.position.y) * (e1.position.y - e2.position.y) +
        (e1.position.x - e2.position.x) * (e1.position.x - e2.position.x) =
        (e1.position.x - e2.position.x) * (e1.position.x - e2.position.x) +
        (e1.position.y - e2.position.y) * (e1.position.y - e2.position.y) := by ring
    rw [hcomm]
    exact hov
  obtain ⟨hdx1, hdx2⟩ := abs_lt.mp hdx
  obtain ⟨hdy1, hdy2⟩ := abs_lt.mp hdy
  have hdivle : ∀ a b : ℝ, a ≤ b → a / c ≤ b / c := fun a b hab => by gcongr
  refine ⟨(⌊max (e1.position.x - e1.radius) (e2.position.x - e2.radius) / c⌋,
           ⌊max (e1.position.y - e1.radius) (e2.position.y - e2.radius) / c⌋), ?_, ?_⟩
  · refine ⟨?_, ?_, ?_, ?_⟩
    · exact Int.floor_le_floor (hdivle _ _ (le_max_left _ _))
    · refine Int.floor_le_floor (hdivle _ _ (max_le (by linarith) (by linarith)))
    · exact Int.floor_le_floor (hdivle _ _ (le_max_left _ _))
    · refine Int.floor_le_floor (hdivle _ _ (max_le (by linarith) (by linarith)))
  · refine ⟨?_, ?_, ?_, ?_⟩
    · exact Int.floor_le_floor (hdivle _ _ (le_max_right _ _))
    · refine Int.floor_le_floor (hdivle _ _ (max_le (by linarith) (by linarith)))
    · exact Int.floor_le_floor (hdivle _ _ (le_max_right _ _))
    · refine Int.floor_le_floor (hdivle _ _ (max_le (by linarith) (by linarith)))

/-- **C5.** For any entity list indexed by `rebuild` (clear + insert all),
`query e` contains the id of every other listed entity whose circle
overlaps `e`'s circle under the engine's own brute-force
`checkCollision` test: the candidate set is a superset of the true overlap
set. -/
theorem c5_query_superset (cellSize : ℝ) (es : List PhysicsEngine.Entity)
    (e e' : PhysicsEngine.Entity) (hc : 0 < cellSize) (he' : e' ∈ es)
    (hne : ¬(e'.id = e.id)) (hr : 0 ≤ e.radius) (hr' : 0 ≤ e'.radius)
    (hov : PhysicsEngine.checkCollision e e') :
    e'.id ∈ SpatialHashGrid.query
      (SpatialHashGrid.rebuild (SpatialHashGrid.emptyGrid cellSize) es) e := by
  obtain ⟨k, hk1, hk2⟩ := overlap_shares_cell cellSize hc e e' hr hr' hov
  have hbase : (SpatialHashGrid.emptyGrid cellSize).clear.cellSize = cellSize := rfl
  have hcs : (SpatialHashGrid.rebuild (SpatialHashGrid.emptyGrid cellSize) es).cellSize
      = cellSize := by
    unfold SpatialHashGrid.rebuild
    rw [foldl_insert_cellSize, hbase]
  refine ⟨hne, k, ?_, ?_⟩
  · rw [hcs]
    exact hk1
  · unfold SpatialHashGrid.rebuild
    refine foldl_insert_registers es _ e' he' k ?_
    rw [hbase]
    exact hk2

/-- First concrete entity of the C5 witness. -/
noncomputable def c5EntityA : PhysicsEngine.Entity :=
  { id := "a", etype := PhysicsEngine.CType.player, position := ⟨50, 50⟩,
    velocity := ⟨0, 0⟩, mass := 100, radius := 10 }

/-- Second concrete entity of the C5 witness, overlapping the first. -/
noncomputable def c5EntityB : PhysicsEngine.Entity :=
  { id := "b", etype := PhysicsEngine.CType.player, position := ⟨50, 50⟩,
    velocity := ⟨0, 0⟩, mass := 100, radius := 10 }

/-- Witness for C5: with cell size 150 and two overlapping entities the
query on the rebuilt grid reports the other entity. -/
theorem c5_query_superset_witness :
    (0 : ℝ) < 150 ∧ ¬(c5EntityB.id = c5EntityA.id) ∧
    (0 : ℝ) ≤ c5EntityA.radius ∧ (0 : ℝ) ≤ c5EntityB.radius ∧
    PhysicsEngine.checkCollision c5EntityA c5EntityB ∧
    c5EntityB.id ∈ SpatialHashGrid.query
      (SpatialHashGrid.rebuild (SpatialHashGrid.emptyGrid 150) [c5EntityA, c5EntityB])
      c5EntityA := by
  have hc : (0 : ℝ) < 150 := by norm_num
  have hne : ¬(c5EntityB.id = c5EntityA.id) := by
    show ¬(("b" : String) = "a")
    decide
  have hr : (0 : ℝ) ≤ c5EntityA.radius := by
    show (0 : ℝ) ≤ 10
    norm_num
  have hr' : (0 : ℝ) ≤ c5EntityB.radius := by
    show (0 : ℝ) ≤ 10
    norm_num
  have hov : PhysicsEngine.checkCollision c5EntityA c5EntityB := by
    show Real.sqrt (((50 : ℝ) - 50) * ((50 : ℝ) - 50) + ((50 : ℝ) - 50) * ((50 : ℝ) - 50)) <
      (10 : ℝ) + 10
    rw [show ((50 : ℝ) - 50) * ((50 : ℝ) - 50) + ((50 : ℝ) - 50) * ((50 : ℝ) - 50) = 0
      by norm_num]
    rw [Real.sqrt_zero]
    norm_num
  exact ⟨hc, hne, hr, hr', hov,
    c5_query_superset 150 [c5EntityA, c5EntityB] c5EntityA c5EntityB hc
      (by simp) hne hr hr' hov⟩

namespace SplitMergeSystem

open Classical

/-- A fragment record of SplitMergeSystem.ts. -/
structure PlayerSplit where
  id : String
  parentId : String
  createdAt : ℤ
  canMerge : Bool

/-- The state of one `SplitMergeSystem` over its physics engine, with the
default configuration of the constructor (minMassToSplit 35, mass share
0.5, splitForce 300, splitCooldown 1000ms, maxSplitParts 16, mergeTime
30000ms). -/
structure State where
  phys : PhysicsEngine.State
  playerSplits : String → List PlayerSplit
  lastSplitTime : String → Option ℤ

/-- `canPlayerSplit`: the player exists, has at least the minimum mass, is
off cooldown, and is under the part cap. -/
def canPlayerSplit (now : ℤ) (st : State) (playerId : String) : Prop :=
  match st.phys.entities playerId with
  | none => False
  | some player =>
      ¬(player.mass < 35) ∧
      ¬(now - ((st.lastSplitTime playerId).getD 0) < 1000) ∧
      ¬((st.playerSplits playerId).length ≥ 16 - 1)

/-- The body of `performSplit` after its guards: halve the player's mass
(recomputing the radius through `updateEntityMass`), spawn the new cell
offset along the normalized direction by the parent's *post-split* radius
plus 10 (the source mutates the fetched entity before reading its radius),
give both cells their separation impulses, record the split and start the
cooldown. -/
noncomputable def performSplitBody (now : ℤ) (st : State) (playerId : String)
    (direction : Option Physics.Vec2) (player : PhysicsEngine.Entity) : State × Bool :=
  let d0 := direction.getD ⟨0, -1⟩
  let magnitude := Real.sqrt (d0.x * d0.x + d0.y * d0.y)
  let sd : Physics.Vec2 := if 0 < magnitude then ⟨d0.x / magnitude, d0.y / magnitude⟩ else d0
  let newCellMass := player.mass * 0.5
  let remainingMass := player.mass - newCellMass
  let phys1 := PhysicsEngine.updateEntityMass st.phys playerId remainingMass
  let newCellId := playerId ++ "_split_" ++ toString now
  let parentRadius := PhysicsEngine.calculateRadius remainingMass
  let newCellPosition : Physics.Vec2 :=
    ⟨player.position.x + sd.x * (parentRadius + 10),
     player.position.y + sd.y * (parentRadius + 10)⟩
  let created := PhysicsEngine.createEntity phys1 newCellId player.etype newCellMass
    newCellPosition
  let phys3 := PhysicsEngine.applyMovement created.1 newCellId ⟨sd.x * 300, sd.y * 300⟩
  let phys4 := PhysicsEngine.applyMovement phys3 playerId
    ⟨-sd.x * (300 * 0.3), -sd.y * (300 * 0.3)⟩
  ({ phys := phys4,
     playerSplits := fun s => if s = playerId
       then st.playerSplits playerId ++ [⟨newCellId, playerId, now, false⟩]
       else st.playerSplits s,
     lastSplitTime := fun s => if s = playerId then some now else st.lastSplitTime s }, true)

/-- `performSplit` of SplitMergeSystem.ts: eligibility guard, entity
lookup, then the split body. -/
noncomputable def performSplit (now : ℤ) (st : State) (playerId : String)
    (direction : Option Physics.Vec2) : State × Bool :=
  if ¬canPlayerSplit now st playerId then (st, false)
  else
    match st.phys.entities playerId with
    | none => (st, false)
    | some player => performSplitBody now st playerId direction player

/-- `removePlayerSplit`: drop the first record with the given split id from
the player's split list. -/
noncomputable def removePlayerSplit (st : State) (playerId splitId : String) : State :=
  { st with playerSplits := fun s => if s = playerId
      then List.eraseP (fun r => r.id == splitId) (st.playerSplits playerId)
      else st.playerSplits s }

/-- `mergeCells` of SplitMergeSystem.ts: pool the masses into the parent
through `updateEntityMass` (radius recomputed), move the parent to the
mass-weighted average position, remove the split cell from the engine and
drop its record. -/
noncomputable def mergeCells (st : State) (parentId splitId : String) : State :=
  match st.phys.entities parentId, st.phys.entities splitId with
  | some parent, some split =>
      let totalMass := parent.mass + split.mass
      let newPosition : Physics.Vec2 :=
        ⟨(parent.position.x * parent.mass + split.position.x * split.mass) / totalMass,
         (parent.position.y * parent.mass + split.position.y * split.mass) / totalMass⟩
      let phys1 := PhysicsEngine.updateEntityMass st.phys parentId totalMass
      let phys2 : PhysicsEngine.State :=
        { phys1 with entities := fun s => if s = parentId
            then (phys1.entities parentId).map (fun p => { p with position := newPosition })
            else phys1.entities s }
      let phys3 := PhysicsEngine.removeEntity phys2 splitId
      removePlayerSplit { st with phys := phys3 } parentId splitId
  | _, _ => st

end SplitMergeSystem

/-- Reduction of `updateEntityMass` when the entity resolves. -/
theorem updateEntityMass_eq (st : PhysicsEngine.State) (id : String) (m : ℝ)
    (p : PhysicsEngine.Entity) (hp : st.entities id = some p) :
    PhysicsEngine.updateEntityMass st id m =
      { entities := fun s => if s = id then
          some { p with mass := m, radius := PhysicsEngine.calculateRadius m }
          else st.entities s,
        spatialGrid := st.spatialGrid.update
          { p with mass := m, radius := PhysicsEngine.calculateRadius m } } := by
  unfold PhysicsEngine.updateEntityMass
  rw [hp]

/-- `updateEntityMass` on an unknown id is the identity. -/
theorem updateEntityMass_none (st : PhysicsEngine.State) (id : String) (m : ℝ)
    (hp : st.entities id = none) :
    PhysicsEngine.updateEntityMass st id m = st := by
  unfold PhysicsEngine.updateEntityMass
  rw [hp]

/-- `applyMovement` leaves every other entity's record untouched. -/
theorem applyMovement_lookup_ne (st : PhysicsEngine.State) (id : String)
    (dir : Physics.Vec2) (s : String) (h : ¬(s = id)) :
    (PhysicsEngine.applyMovement st id dir).entities s = st.entities s := by
  unfold PhysicsEngine.applyMovement
  cases hp : st.entities id
  · rfl
  · dsimp only
    rw [if_neg h]

/-- `applyMovement` only rewrites the velocity of the addressed entity. -/
theorem applyMovement_lookup_eq (st : PhysicsEngine.State) (id : String)
    (dir : Physics.Vec2) (p : PhysicsEngine.Entity) (hp : st.entities id = some p) :
    ∃ v, (PhysicsEngine.applyMovement st id dir).entities id =
      some { p with velocity := v } := by
  unfold PhysicsEngine.applyMovement
  rw [hp]
  dsimp only
  rw [if_pos rfl]
  exact ⟨_, rfl⟩

/-- The entity map after `createEntity`. -/
theorem createEntity_fst_entities (st : PhysicsEngine.State) (id : String)
    (t : PhysicsEngine.CType) (m : ℝ) (pos : Physics.Vec2) :
    (PhysicsEngine.createEntity st id t m pos).1.entities =
      fun s => if s = id then
          some
            { id := id
              etype := t
              position := pos
              velocity := ⟨0, 0⟩
              mass := m
              radius := PhysicsEngine.calculateRadius m }
        else st.entities s := rfl

/-- Lookups after the split's engine-call chain (mass halving, new-cell
creation, the two impulses): the parent carries `rm`, the new cell `nm`. -/
theorem afterSplit_lookups (st0 : PhysicsEngine.State) (pid ncid : String) (rm nm : ℝ)
    (t : PhysicsEngine.CType) (pos dir1 dir2 : Physics.Vec2) (p : PhysicsEngine.Entity)
    (hp : st0.entities pid = some p) (hne : ¬(ncid = pid)) :
    (∃ q, (PhysicsEngine.applyMovement (PhysicsEngine.applyMovement
        (PhysicsEngine.createEntity (PhysicsEngine.updateEntityMass st0 pid rm)
          ncid t nm pos).1 ncid dir1) pid dir2).entities pid = some q ∧ q.mass = rm) ∧
    (∃ f, (PhysicsEngine.applyMovement (PhysicsEngine.applyMovement
        (PhysicsEngine.createEntity (PhysicsEngine.updateEntityMass st0 pid rm)
          ncid t nm pos).1 ncid dir1) pid dir2).entities ncid = some f ∧ f.mass = nm) := by
  have hpid' : ¬(pid = ncid) := fun h => hne h.symm
  have h1 : (PhysicsEngine.updateEntityMass st0 pid rm).entities pid =
      some { p with mass := rm, radius := PhysicsEngine.calculateRadius rm } := by
    rw [updateEntityMass_eq st0 pid rm p hp]
    simp
  have h2 : (PhysicsEngine.createEntity (PhysicsEngine.updateEntityMass st0 pid rm)
      ncid t nm pos).1.entities pid =
      some { p with mass := rm, radius := PhysicsEngine.calculateRadius rm } := by
    rw [createEntity_fst_entities]
    dsimp only
    rw [if_neg hpid']
    exact h1
  have h3 : (PhysicsEngine.createEntity (PhysicsEngine.updateEntityMass st0 pid rm)
      ncid t nm pos).1.entities ncid =
      some
        { id := ncid
          etype := t
          position := pos
          velocity := ⟨0, 0⟩
          mass := nm
          radius := PhysicsEngine.calculateRadius nm } := by
    rw [createEntity_fst_entities]
    dsimp only
    rw [if_pos rfl]
  obtain ⟨v1, h4⟩ := applyMovement_lookup_eq _ ncid dir1 _ h3
  have h5 : (PhysicsEngine.applyMovement (PhysicsEngine.createEntity
      (PhysicsEngine.updateEntityMass st0 pid rm) ncid t nm pos).1 ncid dir1).entities pid =
      some { p with mass := rm, radius := PhysicsEngine.calculateRadius rm } := by
    rw [applyMovement_lookup_ne _ _ _ _ hpid']
    exact h2
  obtain ⟨v2, h6⟩ := applyMovement_lookup_eq _ pid dir2 _ h5
  have h7 := applyMovement_lookup_ne (PhysicsEngine.applyMovement
      (PhysicsEngine.createEntity (PhysicsEngine.updateEntityMass st0 pid rm)
        ncid t nm pos).1 ncid dir1) pid dir2 ncid hne
  rw [h4] at h7
  exact ⟨⟨_, h6, rfl⟩, ⟨_, h7, rfl⟩⟩

/-- A fresh split id is never the player's own id (it is strictly longer). -/
theorem splitId_ne (pid : String) (now : ℤ) :
    ¬(pid ++ "_split_" ++ toString now = pid) := by
  intro h
  have hlen := congrArg String.length h
  rw [String.length_append, String.length_append] at hlen
  have h7 : ("_split_" : String).length = 7 := rfl
  omega

/-- **C3.** A mass-80 player splitting: in the SplitMergeSystem the call
succeeds and leaves two entities of mass 40 each, the cooldown timestamp is
set, and a second request within 1000ms returns the state unchanged with
`false`; in the server's `processSplitAction` a mass-80 entity likewise
becomes two mass-40 entities and an immediate second split is rejected with
no new entity and no mass change. -/
theorem c3_split_scenario (st : SplitMergeSystem.State) (pid : String)
    (p : PhysicsEngine.Entity) (t0 t1 : ℤ) (d : Option Physics.Vec2)
    (hp : st.phys.entities pid = some p) (hm : p.mass = 80)
    (hsplits : st.playerSplits pid = []) (hlast : st.lastSplitTime pid = none)
    (ht0 : 1000 ≤ t0) (ht1 : t1 - t0 < 1000) :
    (SplitMergeSystem.performSplit t0 st pid d).2 = true ∧
    (∃ q, (SplitMergeSystem.performSplit t0 st pid d).1.phys.entities pid = some q ∧
      q.mass = 40) ∧
    (∃ fid f, ¬(fid = pid) ∧
      (SplitMergeSystem.performSplit t0 st pid d).1.phys.entities fid = some f ∧
      f.mass = 40) ∧
    (SplitMergeSystem.performSplit t0 st pid d).1.lastSplitTime pid = some t0 ∧
    SplitMergeSystem.performSplit t1 (SplitMergeSystem.performSplit t0 st pid d).1 pid d =
      ((SplitMergeSystem.performSplit t0 st pid d).1, false) ∧
    (∀ (now : ℤ) (genId : String) (e : Game.Entity), e.mass = 80 →
      (Game.processSplitAction now genId e).1.mass = 40 ∧
      (∃ frag, (Game.processSplitAction now genId e).2 = some frag ∧ frag.mass = 40) ∧
      (∀ (now2 : ℤ) (genId2 : String),
        Game.processSplitAction now2 genId2 (Game.processSplitAction now genId e).1 =
          ((Game.processSplitAction now genId e).1, none))) := by
  have hcan : SplitMergeSystem.canPlayerSplit t0 st pid := by
    unfold SplitMergeSystem.canPlayerSplit
    rw [hp]
    show ¬(p.mass < 35) ∧ ¬(t0 - ((st.lastSplitTime pid).getD 0) < 1000) ∧
      ¬((st.playerSplits pid).length ≥ 16 - 1)
    refine ⟨by rw [hm]; norm_num, ?_, ?_⟩
    · rw [hlast]
      simp only [Option.getD_none]
      omega
    · rw [hsplits]
      simp
  have hred : SplitMergeSystem.performSplit t0 st pid d =
      SplitMergeSystem.performSplitBody t0 st pid d p := by
    unfold SplitMergeSystem.performSplit
    rw [if_neg (not_not_intro hcan), hp]
  set d0 : Physics.Vec2 := d.getD ⟨0, -1⟩ with hd0_def
  set mag : ℝ := Real.sqrt (d0.x * d0.x + d0.y * d0.y) with hmag_def
  set sd : Physics.Vec2 := if 0 < mag then ⟨d0.x / mag, d0.y / mag⟩ else d0 with hsd_def
  set rm : ℝ := p.mass - p.mass * 0.5 with hrm_def
  set nm : ℝ := p.mass * 0.5 with hnm_def
  set ncid : String := pid ++ "_split_" ++ toString t0 with hncid_def
  set pos : Physics.Vec2 :=
    ⟨p.position.x + sd.x * (PhysicsEngine.calculateRadius rm + 10),
     p.position.y + sd.y * (PhysicsEngine.calculateRadius rm + 10)⟩ with hpos_def
  set dir1 : Physics.Vec2 := ⟨sd.x * 300, sd.y * 300⟩ with hdir1_def
  set dir2 : Physics.Vec2 := ⟨-sd.x * (300 * 0.3), -sd.y * (300 * 0.3)⟩ with hdir2_def
  have hncid : ¬(ncid = pid) := splitId_ne pid t0
  have hphys : (SplitMergeSystem.performSplitBody t0 st pid d p).1.phys =
      PhysicsEngine.applyMovement (PhysicsEngine.applyMovement
        (PhysicsEngine.createEntity (PhysicsEngine.updateEntityMass st.phys pid rm)
          ncid p.etype nm pos).1 ncid dir1) pid dir2 := rfl
  obtain ⟨⟨q, hq, hqm⟩, ⟨f, hf, hfm⟩⟩ := afterSplit_lookups st.phys pid ncid rm nm
    p.etype pos dir1 dir2 p hp hncid
  have hnm40 : nm = 40 := by rw [hnm_def, hm]; norm_num
  have hrm40 : rm = 40 := by rw [hrm_def, hm, hnm40]; norm_num
  have hq' : (SplitMergeSystem.performSplitBody t0 st pid d p).1.phys.entities pid =
      some q := by
    rw [hphys]
    exact hq
  have hf' : (SplitMergeSystem.performSplitBody t0 st pid d p).1.phys.entities ncid =
      some f := by
    rw [hphys]
    exact hf
  have hlast' : (SplitMergeSystem.performSplitBody t0 st pid d p).1.lastSplitTime pid =
      some t0 := by
    show (if pid = pid then some t0 else st.lastSplitTime pid) = some t0
    rw [if_pos rfl]
  have hnotcan : ¬SplitMergeSystem.canPlayerSplit t1
      (SplitMergeSystem.performSplitBody t0 st pid d p).1 pid := by
    unfold SplitMergeSystem.canPlayerSplit
    rw [hq']
    intro hcontra
    have hcontra' : ¬(q.mass < 35) ∧
        ¬(t1 - (((SplitMergeSystem.performSplitBody t0 st pid d p).1.lastSplitTime
          pid).getD 0) < 1000) ∧
        ¬(((SplitMergeSystem.performSplitBody t0 st pid d p).1.playerSplits
          pid).length ≥ 16 - 1) := hcontra
    have h2 := hcontra'.2.1
    rw [hlast'] at h2
    simp only [Option.getD_some] at h2
    exact h2 ht1
  rw [hred]
  refine ⟨rfl, ⟨q, hq', by rw [hqm]; exact hrm40⟩,
    ⟨ncid, f, hncid, hf', by rw [hfm]; exact hnm40⟩, hlast', ?_, ?_⟩
  · unfold SplitMergeSystem.performSplit
    rw [if_pos hnotcan]
  · intro now genId e he80
    have hcond : ¬(e.mass < 50) := by rw [he80]; norm_num
    have h1 : (Game.processSplitAction now genId e).1.mass = e.mass / 2 := by
      unfold Game.processSplitAction
      rw [if_neg hcond]
    have h2 : ∃ frag, (Game.processSplitAction now genId e).2 = some frag ∧
        frag.mass = e.mass / 2 := by
      unfold Game.processSplitAction
      rw [if_neg hcond]
      exact ⟨_, rfl, rfl⟩
    refine ⟨by rw [h1, he80]; norm_num, ?_, ?_⟩
    · obtain ⟨frag, hfrag, hfragm⟩ := h2
      exact ⟨frag, hfrag, by rw [hfragm, he80]; norm_num⟩
    · intro now2 genId2
      have hm40 : (Game.processSplitAction now genId e).1.mass = 40 := by
        rw [h1, he80]
        norm_num
      generalize hE : (Game.processSplitAction now genId e).1 = E at hm40 ⊢
      have hcond2 : E.mass < 50 := by rw [hm40]; norm_num
      unfold Game.processSplitAction
      rw [if_pos hcond2]

/-- Concrete mass-80 player for the C3 witness. -/
noncomputable def c3Player : PhysicsEngine.Entity :=
  { id := "p", etype := PhysicsEngine.CType.player, position := ⟨500, 500⟩,
    velocity := ⟨0, 0⟩, mass := 80, radius := PhysicsEngine.calculateRadius 80 }

/-- Concrete split/merge state for the C3 witness: one player, no fragments,
no cooldown history. -/
noncomputable def c3State : SplitMergeSystem.State :=
  { phys :=
      { entities := fun s => if s = "p" then some c3Player else none,
        spatialGrid := SpatialHashGrid.emptyGrid 150 },
    playerSplits := fun _ => [],
    lastSplitTime := fun _ => none }

/-- Witness for C3: the scenario run at times 2000 and 2500 (500ms apart). -/
theorem c3_split_scenario_witness :
    c3State.phys.entities "p" = some c3Player ∧
    c3Player.mass = 80 ∧
    c3State.playerSplits "p" = [] ∧
    c3State.lastSplitTime "p" = none ∧
    (1000 : ℤ) ≤ 2000 ∧
    (2500 : ℤ) - 2000 < 1000 ∧
    (SplitMergeSystem.performSplit 2000 c3State "p" none).2 = true ∧
    (SplitMergeSystem.performSplit 2000 c3State "p" none).1.lastSplitTime "p" =
      some 2000 ∧
    SplitMergeSystem.performSplit 2500
        (SplitMergeSystem.performSplit 2000 c3State "p" none).1 "p" none =
      ((SplitMergeSystem.performSplit 2000 c3State "p" none).1, false) := by
  have h1 : c3State.phys.entities "p" = some c3Player := by
    simp [c3State]
  have h2 : c3Player.mass = 80 := rfl
  have h3 : c3State.playerSplits "p" = [] := rfl
  have h4 : c3State.lastSplitTime "p" = none := rfl
  have h5 : (1000 : ℤ) ≤ 2000 := by norm_num
  have h6 : (2500 : ℤ) - 2000 < 1000 := by norm_num
  have happ := c3_split_scenario c3State "p" c3Player 2000 2500 none h1 h2 h3 h4 h5 h6
  exact ⟨h1, h2, h3, h4, h5, h6, happ.1, happ.2.2.2.1, happ.2.2.2.2.1⟩

/-- The radius invariant of the spec, server side: the stored radius is
`sqrt(mass/pi)`. -/
def serverRadiusDerived (e : Game.Entity) : Prop :=
  e.radius = Real.sqrt (e.mass / Real.pi)

/-- The radius invariant of the spec, client side. -/
def clientRadiusDerived (e : PhysicsEngine.Entity) : Prop :=
  e.radius = Real.sqrt (e.mass / Real.pi)

/-- Server `createEntity` always stores the mass-derived radius, whatever
the config contains (even an explicit `radius`). -/
theorem createEntity_radius_derived (now : ℤ) (genId : String) (cfg : Game.EntityConfig) :
    serverRadiusDerived (Game.createEntity now genId cfg) := by
  show Physics.radiusFromMass (cfg.mass.getD 100) =
    Real.sqrt ((cfg.mass.getD 100) / Real.pi)
  exact radiusFromMass_eq_sqrt _

/-- **C6.** Radius is only ever written as a recomputation from mass: the
invariant `radius = sqrt(mass/pi)` is established by entity creation and
preserved by eating (`handleCollision`), splitting (`processSplitAction`),
the client's explicit `updateEntityMass`, and merging (`mergeCells`). -/
theorem c6_radius_recomputed :
    (∀ (now : ℤ) (genId : String) (cfg : Game.EntityConfig),
      serverRadiusDerived (Game.createEntity now genId cfg)) ∧
    (∀ (st : PhysicsEngine.State) (id : String) (m : ℝ),
      (∀ s e0, st.entities s = some e0 → clientRadiusDerived e0) →
      ∀ s e1, (PhysicsEngine.updateEntityMass st id m).entities s = some e1 →
        clientRadiusDerived e1) ∧
    (∀ (now : ℤ) (a b : Game.Entity), serverRadiusDerived a → serverRadiusDerived b →
      serverRadiusDerived (Game.handleCollision now a b).1 ∧
      serverRadiusDerived (Game.handleCollision now a b).2) ∧
    (∀ (now : ℤ) (genId : String) (e : Game.Entity), serverRadiusDerived e →
      serverRadiusDerived (Game.processSplitAction now genId e).1 ∧
      (∀ f, (Game.processSplitAction now genId e).2 = some f → serverRadiusDerived f)) ∧
    (∀ (st : SplitMergeSystem.State) (pid sid : String),
      (∀ s e0, st.phys.entities s = some e0 → clientRadiusDerived e0) →
      ∀ s e1, (SplitMergeSystem.mergeCells st pid sid).phys.entities s = some e1 →
        clientRadiusDerived e1) := by
  refine ⟨createEntity_radius_derived, ?_, ?_, ?_, ?_⟩
  · intro st id m hinv s e1 h1
    cases hlook : st.entities id with
    | none =>
        rw [updateEntityMass_none st id m hlook] at h1
        exact hinv s e1 h1
    | some p =>
        rw [updateEntityMass_eq st id m p hlook] at h1
        dsimp only at h1
        by_cases hs : s = id
        · rw [if_pos hs] at h1
          injection h1 with h1'
          rw [← h1']
          show PhysicsEngine.calculateRadius m = Real.sqrt (m / Real.pi)
          rfl
        · rw [if_neg hs] at h1
          exact hinv s e1 h1
  · intro now a b ha hb
    unfold Game.handleCollision
    by_cases h1 : Game.canEat a b
    · rw [if_pos h1]
      constructor
      · show Physics.radiusFromMass (Physics.calculateNewMass a.mass b.mass 1) =
          Real.sqrt ((Physics.calculateNewMass a.mass b.mass 1) / Real.pi)
        exact radiusFromMass_eq_sqrt _
      · exact hb
    · rw [if_neg h1]
      by_cases h2 : Game.canEat b a
      · rw [if_pos h2]
        constructor
        · exact ha
        · show Physics.radiusFromMass (Physics.calculateNewMass b.mass a.mass 1) =
            Real.sqrt ((Physics.calculateNewMass b.mass a.mass 1) / Real.pi)
          exact radiusFromMass_eq_sqrt _
      · rw [if_neg h2]
        exact ⟨ha, hb⟩
  · intro now genId e he
    unfold Game.processSplitAction
    by_cases h : e.mass < 50
    · rw [if_pos h]
      refine ⟨he, ?_⟩
      intro f hf
      simp at hf
    · rw [if_neg h]
      constructor
      · show Physics.radiusFromMass (e.mass / 2) = Real.sqrt ((e.mass / 2) / Real.pi)
        exact radiusFromMass_eq_sqrt _
      · intro f hf
        have hf' : some (Game.createEntity now genId
            { etype := some Game.EType.fragment
              ownerId := some e.id
              x := some ((e.x : ℝ) + Physics.radiusFromMass (e.mass / 2) * 2)
              y := some e.y
              mass := some (e.mass / 2)
              vx := some (e.vx * 1.5)
              vy := some (e.vy * 1.5)
              lifetime := some 30000 }) = some f := hf
        injection hf' with hf''
        rw [← hf'']
        exact createEntity_radius_derived now genId _
  · intro st pid sid hinv s e1 h1
    unfold SplitMergeSystem.mergeCells at h1
    split at h1
    · next parent split' heq1 heq2 =>
        dsimp only [SplitMergeSystem.removePlayerSplit, PhysicsEngine.removeEntity] at h1
        by_cases hs1 : s = sid
        · rw [if_pos hs1] at h1
          cases h1
        · rw [if_neg hs1] at h1
          by_cases hs2 : s = pid
          · rw [if_pos hs2] at h1
            rw [updateEntityMass_eq st.phys pid _ parent heq1] at h1
            dsimp only at h1
            rw [if_pos rfl] at h1
            simp only [Option.map_some'] at h1
            injection h1 with h1'
            rw [← h1']
            show PhysicsEngine.calculateRadius (parent.mass + split'.mass) =
              Real.sqrt ((parent.mass + split'.mass) / Real.pi)
            rfl
          · rw [if_neg hs2] at h1
            rw [updateEntityMass_eq st.phys pid _ parent heq1] at h1
            dsimp only at h1
            rw [if_neg hs2] at h1
            exact hinv s e1 h1
    · next =>
        exact hinv s e1 h1
